import Mathlib

/-!
# Verification of the room-booking backend (`backend/app/routes.py`)

Shallow embedding of the booking lifecycle core of the FastAPI backend:
bookings, notifications, availability checking, capacity enforcement, the
invitation state machine and the reminder engine.  Each definition mirrors
the corresponding Python function in `backend/app/routes.py` (names are
kept).  Conventions of the embedding:

* Timestamps (`datetime` values) are modelled as `Int` minutes on a naive
  local timeline; `timedelta(hours=1)` is `60`.  `strftime` formatting is
  abstracted by `fmtTime`/`fmtYMDHM` (string rendering of the timestamp);
  no claim depends on the rendered text of a timestamp.
* The string parsing done by `datetime.strptime` in `_parse_request_times`
  is elided: requests carry an already-split day number and minute-of-day
  values, and `datetime.combine` becomes `day * 1440 + minuteOfDay`.
  (A malformed string is a 400 in the code; no claim concerns that path.)
* `HTTPException(status_code, detail)` is a structure of the same shape;
  `raise` becomes `Except.error`.  Python's `list.remove` (which raises
  `ValueError` when the element is absent) is modelled explicitly in
  `decline_invitation`, the one operation that can fail *after* mutating
  state, via an outcome type with a `valueError` constructor paired with
  the state as mutated so far.
* Python `set` expressions (`set(..)`, `&`, `|`, `-`, `list(..)`) become
  `List.toFinset`, `∩`, `∪`, `\`, `Finset.toList`.
* The `Booking` model carries the `visibility` field exactly as
  `routes.py` uses it (`req.visibility`, `booking.visibility`); the
  pydantic models in `data.py` omit it, an integration slip of the repo
  that no claim depends on.
* Authentication (`Depends(get_current_user)`) is abstracted: every
  operation receives the authenticated `User` directly, and `now`
  (`datetime.utcnow()`) is an explicit parameter.
-/

namespace RoomBooking

/-- Model `User` from `backend/app/data.py` (credential fields, which the
booking core never reads, are omitted). -/
structure User where
  id : Nat
  name : String
  email : String
  role : String
deriving Repr, DecidableEq

/-- Model `Room` from `backend/app/data.py`. -/
structure Room where
  id : Nat
  name : String
  capacity : Nat
  facilities : List String
  building : String
deriving Repr, DecidableEq

/-- Model `Booking` from `backend/app/data.py`, with the `visibility`
field that `routes.py` reads and writes. -/
structure Booking where
  id : Nat
  room_id : Nat
  organiser_id : Nat
  attendee_ids : List Nat
  pending_attendee_ids : List Nat
  title : String
  notes : Option String
  start_time : Int
  end_time : Int
  visibility : String
  status : String
  reminder_sent : Bool
deriving Repr, DecidableEq, Inhabited

/-- Model `Notification` from `backend/app/data.py`. -/
structure Notification where
  id : Nat
  user_id : Nat
  type : String
  title : String
  message : String
  booking_id : Option Nat
  created_at : Int
  is_read : Bool
deriving Repr, DecidableEq

/-- Shape of `fastapi.HTTPException` as raised throughout `routes.py`. -/
structure HTTPException where
  status_code : Nat
  detail : String
deriving Repr, DecidableEq

/-- Model `CreateBookingRequest` from `backend/app/data.py` (also used for
updates), with `date`/`start_time`/`end_time` already split into a day
number and minutes-of-day (see module docstring). -/
structure CreateBookingRequest where
  room_id : Nat
  title : String
  date : Int
  start_time : Int
  end_time : Int
  notes : Option String
  attendee_emails : List String
  visibility : String
deriving Repr, DecidableEq

/-- Model `CancelBookingRequest` from `backend/app/data.py`. -/
structure CancelBookingRequest where
  reason : Option String
deriving Repr, DecidableEq

/-- Model `DeclineInvitationRequest` from `backend/app/data.py`. -/
structure DeclineInvitationRequest where
  reason : Option String
deriving Repr, DecidableEq

/-- The global mutable module state of `backend/app`: the `USERS`,
`ROOMS`, `BOOKINGS` and `NOTIFICATIONS` lists. -/
structure AppState where
  users : List User
  rooms : List Room
  bookings : List Booking
  notifications : List Notification
deriving Repr, DecidableEq

/-- Abstraction of `strftime` time rendering (see module docstring). -/
def fmtTime (t : Int) : String := toString t

/-- The room-name lookup pattern used throughout `routes.py`:
`room.name if room else "Unknown Room"`. -/
def room_name_of (rooms : List Room) (rid : Nat) : String :=
  match rooms.find? (fun r => r.id == rid) with
  | some r => r.name
  | none => "Unknown Room"

/-- The reason suffix of the cancellation notifications (routes.py:535). -/
def reason_suffix (reason : Option String) : String :=
  match reason with
  | some r => "\n\nReason: " ++ r
  | none => ""

/-- Helper `create_notification` (routes.py:36): fresh id one above the
current maximum, appended to the notification list. -/
def create_notification (notifs : List Notification) (now : Int) (user_id : Nat)
    (notif_type title message : String) (booking_id : Option Nat) : List Notification :=
  let new_id := (notifs.map (fun n => n.id)).foldl max 0 + 1
  notifs ++ [{ id := new_id, user_id := user_id, type := notif_type, title := title,
               message := message, booking_id := booking_id, created_at := now,
               is_read := false }]

/-- One booking's reminder notifications (routes.py:73-86): organiser first
("Your meeting ..."), then every accepted attendee ("Meeting ..."), each
via `create_notification`. -/
def reminderNotifs (now : Int) (rooms : List Room) (b : Booking)
    (notifs : List Notification) : List Notification :=
  let room_name := match rooms.find? (fun r => r.id == b.room_id) with
    | some r => r.name
    | none => "Unknown Room"
  let time_str := fmtTime b.start_time
  let recipients := b.organiser_id :: b.attendee_ids
  recipients.foldl (fun ns uid =>
    let msgHead := if uid == b.organiser_id then "Your meeting" else "Meeting"
    create_notification ns now uid "booking_reminder" "Upcoming Meeting Reminder"
      (msgHead ++ " " ++ b.title ++ " in " ++ room_name ++ " starts at "
        ++ time_str ++ " (in 1 hour).") (some b.id)) notifs

/-- Function `process_booking_reminders` (routes.py:54-91): scan `BOOKINGS`; for
each booking that has not had its reminder sent and whose `start_time`
equals exactly `now + 1 hour`, emit reminders and set `reminder_sent`. -/
def process_booking_reminders (now : Int) (rooms : List Room)
    (bookings : List Booking) (notifs : List Notification) :
    List Booking × List Notification :=
  bookings.foldl (fun acc b =>
    if b.reminder_sent || b.start_time != now + 60 then
      (acc.1 ++ [b], acc.2)
    else
      (acc.1 ++ [{ b with reminder_sent := true }], reminderNotifs now rooms b acc.2))
    ([], notifs)

/-- Helper `_booking_index` (routes.py:336-341): index of the first booking with
the given id, or a 404. -/
def _booking_index : List Booking → Nat → Except HTTPException Nat
  | [], _ => .error ⟨404, "Booking not found"⟩
  | b :: rest, booking_id =>
    if b.id == booking_id then .ok 0
    else (_booking_index rest booking_id).map (fun i => i + 1)

/-- Helper `overlaps` (routes.py:344): half-open interval overlap test. -/
def overlaps (a_start a_end b_start b_end : Int) : Bool :=
  a_start < b_end && b_start < a_end

/-- Helper `_parse_request_times` (routes.py:349-371).  `datetime.combine` of the
shared day with each clock value, then `end > start` and not-in-the-past
validation.  String-format parsing is elided (module docstring). -/
def _parse_request_times (now : Int) (date_v start_v end_v : Int) :
    Except HTTPException (Int × Int) :=
  let start := date_v * 1440 + start_v
  let «end» := date_v * 1440 + end_v
  if «end» ≤ start then
    .error ⟨400, "End time must be after start time."⟩
  else if start < now then
    .error ⟨400, "Cannot book in the past."⟩
  else
    .ok (start, «end»)

/-- Helper `_resolve_attendees` (routes.py:374-391): resolve every email against
`USERS`, collecting all unresolved emails and reporting them together. -/
def _resolve_attendees (users : List User) (attendee_emails : List String) :
    Except HTTPException (List Nat) :=
  let attendee_ids := attendee_emails.filterMap
    (fun e => (users.find? (fun u => u.email == e)).map (fun u => u.id))
  let invalid_emails := attendee_emails.filter
    (fun e => (users.find? (fun u => u.email == e)).isNone)
  if invalid_emails.isEmpty then .ok attendee_ids
  else .error ⟨400, "Invalid attendee emails: " ++ String.intercalate ", " invalid_emails⟩

/-- Helper `_get_room_or_404` (routes.py:394-398). -/
def _get_room_or_404 (rooms : List Room) (room_id : Nat) : Except HTTPException Room :=
  match rooms.find? (fun r => r.id == room_id) with
  | some r => .ok r
  | none => .error ⟨404, "Room not found."⟩

/-- Helper `_validate_capacity` (routes.py:401-408): accepted + pending + the
organiser must fit in the room. -/
def _validate_capacity (room : Room) (accepted_count pending_count : Nat) :
    Except HTTPException Unit :=
  let total_people := accepted_count + pending_count + 1
  if total_people > room.capacity then
    .error ⟨400, "Room capacity is " ++ toString room.capacity ++ ", but "
      ++ toString total_people ++ " people specified."⟩
  else .ok ()

/-- Python truthiness of `exclude_booking_id and booking.id ==
exclude_booking_id` (routes.py:414): the exclusion applies only when the
argument is present and non-zero. -/
def _excluded (exclude_booking_id : Option Nat) (bid : Nat) : Bool :=
  match exclude_booking_id with
  | some e => e != 0 && bid == e
  | none => false

/-- Helper `_ensure_room_available` (routes.py:411-420): 409 naming the first
conflicting booking on the room, skipping the excluded one. -/
def _ensure_room_available (bookings : List Booking) (room_id : Nat)
    (start «end» : Int) (exclude_booking_id : Option Nat) :
    Except HTTPException Unit :=
  match bookings.find? (fun b =>
      !(_excluded exclude_booking_id b.id) && b.room_id == room_id
        && overlaps start «end» b.start_time b.end_time) with
  | some b => .error ⟨409, "Room already booked from " ++ fmtTime b.start_time
      ++ " to " ++ fmtTime b.end_time ++ "."⟩
  | none => .ok ()

/-- The attendee-set reconciliation of `update_booking` (routes.py:480-492),
with Python `set` operations rendered as duplicate-free lists
(`List.dedup`, `filter`, `append`; the iteration order of a Python `set`
is arbitrary, so only membership is meaningful): keep previously-accepted
attendees that are still requested, send newly requested ones to pending,
and keep the existing pending set (minus any accepted) alongside them.

* `accepted_attendees = list(current_accepted & all_requested)`
* `new_pending = list(all_requested - current_accepted)`
* `all_pending = list((current_pending | set(new_pending)) - current_accepted)` -/
def reconcile_attendees (attendee_ids pending_attendee_ids new_attendee_ids : List Nat) :
    List Nat × List Nat :=
  let accepted_attendees :=
    attendee_ids.dedup.filter (fun a => new_attendee_ids.contains a)
  let new_pending :=
    new_attendee_ids.dedup.filter (fun a => !attendee_ids.contains a)
  let all_pending :=
    (pending_attendee_ids.dedup
        ++ new_pending.filter (fun a => !pending_attendee_ids.contains a)).filter
      (fun a => !attendee_ids.contains a)
  (accepted_attendees, all_pending)

/-- Endpoint `create_booking` (routes.py:423-460).  Note the code performs no
role/capability check on the caller: any authenticated user reaches the
validation pipeline.  On success the new booking is appended with all
resolved attendees pending. -/
def create_booking (now : Int) (req : CreateBookingRequest) (current_user : User)
    (s : AppState) : Except HTTPException (Booking × AppState) := do
  let (start, «end») ← _parse_request_times now req.date req.start_time req.end_time
  let room ← _get_room_or_404 s.rooms req.room_id
  let attendee_ids ← _resolve_attendees s.users req.attendee_emails
  _validate_capacity room 0 attendee_ids.length
  _ensure_room_available s.bookings req.room_id start «end» none
  let new_id := (s.bookings.map (fun b => b.id)).foldl max 0 + 1
  let new_booking : Booking :=
    { id := new_id
      room_id := req.room_id
      organiser_id := current_user.id
      attendee_ids := []
      pending_attendee_ids := attendee_ids
      title := req.title
      notes := req.notes
      start_time := start
      end_time := «end»
      visibility := req.visibility
      status := "confirmed"
      reminder_sent := false }
  .ok (new_booking, { s with bookings := s.bookings ++ [new_booking] })

/-- Endpoint `update_booking` (routes.py:463-513).  Note the code performs no
organiser check on the caller (despite its docstring "organiser-only"): it
goes straight from the 404 lookup to the validation pipeline.  Attendee
reconciliation is `reconcile_attendees`; the booking is replaced in place
at its index. -/
def update_booking (now : Int) (booking_id : Nat) (req : CreateBookingRequest)
    (current_user : User) (s : AppState) : Except HTTPException (Booking × AppState) := do
  let idx ← _booking_index s.bookings booking_id
  let booking := s.bookings.getD idx default
  let (start, «end») ← _parse_request_times now req.date req.start_time req.end_time
  let new_attendee_ids ← _resolve_attendees s.users req.attendee_emails
  let (accepted_attendees, all_pending) :=
    reconcile_attendees booking.attendee_ids booking.pending_attendee_ids new_attendee_ids
  let room ← _get_room_or_404 s.rooms req.room_id
  _validate_capacity room accepted_attendees.length all_pending.length
  _ensure_room_available s.bookings req.room_id start «end» (some booking.id)
  let updated_booking : Booking :=
    { booking with
      room_id := req.room_id, attendee_ids := accepted_attendees,
      pending_attendee_ids := all_pending, title := req.title, notes := req.notes,
      start_time := start, end_time := «end», visibility := req.visibility }
  .ok (updated_booking, { s with bookings := s.bookings.set idx updated_booking })

/-- The optional cancellation reason (routes.py:534): `body.reason if body
and body.reason else None`, with Python truthiness of the empty string. -/
def _cancel_reason (body : Option CancelBookingRequest) : Option String :=
  match body with
  | some b => match b.reason with
    | some r => if r == "" then none else some r
    | none => none
  | none => none

/-- Endpoint `delete_booking` (routes.py:516-558).  Note the code performs no
organiser check on the caller (despite its docstring "organisers only").
Every accepted attendee gets a "Meeting Cancelled" notification and every
pending attendee a "Meeting Invitation Cancelled" notification — all built
from the booking's fields — and then the booking is removed. -/
def delete_booking (now : Int) (booking_id : Nat) (body : Option CancelBookingRequest)
    (s : AppState) : Except HTTPException AppState := do
  let idx ← _booking_index s.bookings booking_id
  let booking := s.bookings.getD idx default
  let room_name := room_name_of s.rooms booking.room_id
  let reason_text := reason_suffix (_cancel_reason body)
  let notifs1 := booking.attendee_ids.foldl (fun ns attendee_id =>
    create_notification ns now attendee_id "booking_cancelled" "Meeting Cancelled"
      ("The meeting " ++ booking.title ++ " scheduled for " ++ fmtTime booking.start_time
        ++ " in " ++ room_name ++ " has been cancelled by the organizer." ++ reason_text)
      (some booking.id)) s.notifications
  let notifs2 := booking.pending_attendee_ids.foldl (fun ns attendee_id =>
    create_notification ns now attendee_id "booking_cancelled" "Meeting Invitation Cancelled"
      ("Your invitation to " ++ booking.title ++ " scheduled for " ++ fmtTime booking.start_time
        ++ " in " ++ room_name ++ " has been cancelled." ++ reason_text)
      (some booking.id)) notifs1
  .ok { s with bookings := s.bookings.eraseIdx idx, notifications := notifs2 }

/-- Endpoint `get_booking_details` (routes.py:561-587): for a `private` booking
only the organiser or an accepted attendee passes the privacy check
(membership in `pending_attendee_ids` is not consulted).  The
`booking_to_response` rendering is elided; the booking itself is returned
on success. -/
def get_booking_details (booking_id : Nat) (current_user : User) (s : AppState) :
    Except HTTPException Booking := do
  let idx ← _booking_index s.bookings booking_id
  let booking := s.bookings.getD idx default
  if booking.visibility == "private" then
    let is_organiser := current_user.id == booking.organiser_id
    let is_attendee := booking.attendee_ids.contains current_user.id
    if !(is_organiser || is_attendee) then
      .error ⟨403, "You do not have access to this private booking"⟩
    else
      .ok booking
  else
    .ok booking

/-- Endpoint `accept_invitation` (routes.py:590-643): requires a pending
invitation; if the booking's room is found, requires
`|accepted| + 1 + 1 ≤ capacity` (pending invitees are not counted);
requires the booking not to have started; then moves the caller from
pending to accepted. -/
def accept_invitation (now : Int) (booking_id : Nat) (current_user : User)
    (s : AppState) : Except HTTPException (String × AppState) := do
  let idx ← _booking_index s.bookings booking_id
  let booking := s.bookings.getD idx default
  if booking.pending_attendee_ids.contains current_user.id then
    (match s.rooms.find? (fun r => r.id == booking.room_id) with
     | some room =>
       let total_people := booking.attendee_ids.length + 1 + 1
       if total_people > room.capacity then
         Except.error ⟨400, "Booking is at full capacity (" ++ toString room.capacity
           ++ " people)"⟩
       else Except.ok ()
     | none => Except.ok ()) >>= fun _ =>
    if booking.start_time < now then
      .error ⟨400, "This booking has already started"⟩
    else
      let booking' : Booking :=
        { booking with
          pending_attendee_ids := booking.pending_attendee_ids.erase current_user.id,
          attendee_ids := booking.attendee_ids ++ [current_user.id] }
      .ok ("Successfully accepted invitation", { s with bookings := s.bookings.set idx booking' })
  else if booking.attendee_ids.contains current_user.id then
    .error ⟨400, "You have already accepted this invitation"⟩
  else
    .error ⟨400, "You don\x27t have a pending invitation to this booking"⟩

/-- Outcome of `decline_invitation`: success, a raised `HTTPException`, or
the uncaught `ValueError` from `list.remove` when the caller is in neither
attendee list (surfaced by FastAPI as a 500).  The final state is paired
with the outcome because the `ValueError` escapes *after* the notification
was created and saved. -/
inductive DeclineOutcome where
  | ok : String → DeclineOutcome
  | httpError : HTTPException → DeclineOutcome
  | valueError : DeclineOutcome
deriving Repr, DecidableEq

/-- Endpoint `decline_invitation` (routes.py:646-692).  Note: there is no check
that the caller is in `pending ∪ accepted`.  The organiser notification is
created unconditionally once the two validations pass; only then does
`list.remove` run, raising `ValueError` when the caller is in neither
list. -/
def decline_invitation (now : Int) (booking_id : Nat) (current_user : User)
    (body : Option DeclineInvitationRequest) (s : AppState) :
    DeclineOutcome × AppState :=
  match _booking_index s.bookings booking_id with
  | .error e => (.httpError e, s)
  | .ok idx =>
    let booking := s.bookings.getD idx default
    let is_pending := booking.pending_attendee_ids.contains current_user.id
    let is_accepted := booking.attendee_ids.contains current_user.id
    if current_user.id == booking.organiser_id then
      (.httpError ⟨400, "Organisers cannot decline. Use DELETE /bookings/\x7bid\x7d to cancel."⟩, s)
    else if is_accepted && decide (booking.start_time < now) then
      (.httpError ⟨400, "Cannot cancel after meeting started"⟩, s)
    else
      let action := if is_pending then "declined the invitation to"
        else "cancelled their attendance for"
      let reason_text := match body with
        | some b => match b.reason with
          | some r => if r == "" then "" else "\n\nReason: " ++ r
          | none => ""
        | none => ""
      let room_name := match s.rooms.find? (fun r => r.id == booking.room_id) with
        | some r => r.name
        | none => "Unknown Room"
      let notifs := create_notification s.notifications now booking.organiser_id
        "invitation_declined" "Attendee Response"
        (current_user.name ++ " has " ++ action ++ " your meeting " ++ booking.title
          ++ " scheduled for " ++ fmtTime booking.start_time ++ " in " ++ room_name
          ++ "." ++ reason_text) (some booking.id)
      let s1 := { s with notifications := notifs }
      let target_list := if is_pending then booking.pending_attendee_ids
        else booking.attendee_ids
      if target_list.contains current_user.id then
        let booking' : Booking := if is_pending then
            { booking with pending_attendee_ids := target_list.erase current_user.id }
          else
            { booking with attendee_ids := target_list.erase current_user.id }
        (.ok (if is_pending then "Declined invitation" else "Cancelled attendance"),
          { s1 with bookings := s1.bookings.set idx booking' })
      else
        (.valueError, s1)

/-! ## Concrete fixtures

Small states mirroring the seed data in `backend/app/data.py` (Alice the
organiser, Ben the attendee-role user, Chloe the second organiser, Study
Room 101 with capacity 4), used to evaluate the operations at concrete
inputs.  Times are minutes: day 10 at 09:00 is `10 * 1440 + 540 = 14940`. -/

/-- Seed user 1 (role `organiser`). -/
def alice : User :=
  { id := 1, name := "Alice Johnson", email := "alicejohnson@st-andrews.ac.uk",
    role := "organiser" }

/-- Seed user 2 (role `attendee`). -/
def ben : User :=
  { id := 2, name := "Ben Lee", email := "benlee@st-andrews.ac.uk", role := "attendee" }

/-- Seed user 3 (role `organiser`). -/
def chloe : User :=
  { id := 3, name := "Chloe Smith", email := "chloesmith@st-andrews.ac.uk",
    role := "organiser" }

/-- A fourth user, registered like the test-suite fixtures. -/
def dana : User :=
  { id := 4, name := "Dana Hart", email := "dana@test.com", role := "attendee" }

/-- Seed room 1: Study Room 101, capacity 4. -/
def room1 : Room :=
  { id := 1, name := "Study Room 101", capacity := 4, facilities := ["whiteboard"],
    building := "Library" }

/-- A capacity-3 room (like Meeting Pod 1 shrunk to 3) for the capacity
scenarios. -/
def room3 : Room :=
  { id := 3, name := "Meeting Pod 1", capacity := 3, facilities := ["video conferencing"],
    building := "Jack Cole Building" }

/-- A future public booking by Alice on room 1 with no attendees. -/
def bookingA : Booking :=
  { id := 1, room_id := 1, organiser_id := 1, attendee_ids := [],
    pending_attendee_ids := [], title := "Team Sync", notes := none,
    start_time := 14940, end_time := 15000, visibility := "public",
    status := "confirmed", reminder_sent := false }

/-- State holding `bookingA`. -/
def stateA : AppState :=
  { users := [alice, ben, chloe, dana], rooms := [room1, room3],
    bookings := [bookingA], notifications := [] }

/-- State with no bookings at all. -/
def stateEmpty : AppState :=
  { users := [alice, ben, chloe, dana], rooms := [room1, room3],
    bookings := [], notifications := [] }

/-- A valid update/create request on room 1 for day 10, 10:00-11:00. -/
def reqHijack : CreateBookingRequest :=
  { room_id := 1, title := "Hijacked Meeting", date := 10, start_time := 600,
    end_time := 660, notes := none, attendee_emails := [], visibility := "public" }

/-- A valid create request on room 1 for day 10, 09:00-10:00. -/
def reqAttendee : CreateBookingRequest :=
  { room_id := 1, title := "Attendee Attempt", date := 10, start_time := 540,
    end_time := 600, notes := none, attendee_emails := [], visibility := "public" }

/-- A create request whose attendee list names the organiser's own email. -/
def reqSelf : CreateBookingRequest :=
  { room_id := 1, title := "Self Invite", date := 10, start_time := 540,
    end_time := 600, notes := none,
    attendee_emails := ["alicejohnson@st-andrews.ac.uk"], visibility := "public" }

/-- A private future booking by Alice with Ben pending. -/
def bookingC : Booking :=
  { id := 1, room_id := 1, organiser_id := 1, attendee_ids := [],
    pending_attendee_ids := [2], title := "Private Sync", notes := none,
    start_time := 14940, end_time := 15000, visibility := "private",
    status := "confirmed", reminder_sent := false }

/-- State holding `bookingC`. -/
def stateC : AppState :=
  { users := [alice, ben, chloe, dana], rooms := [room1, room3],
    bookings := [bookingC], notifications := [] }

/-- A future booking by Alice with Ben accepted and nobody pending. -/
def bookingD : Booking :=
  { id := 1, room_id := 1, organiser_id := 1, attendee_ids := [2],
    pending_attendee_ids := [], title := "Team Sync", notes := none,
    start_time := 14940, end_time := 15000, visibility := "public",
    status := "confirmed", reminder_sent := false }

/-- State holding `bookingD`. -/
def stateD : AppState :=
  { users := [alice, ben, chloe, dana], rooms := [room1, room3],
    bookings := [bookingD], notifications := [] }

/-- A future booking on the capacity-3 room with Ben accepted and Chloe
and Dana pending: organiser + accepted + pending = 4 > 3 = capacity. -/
def bookingE : Booking :=
  { id := 1, room_id := 3, organiser_id := 1, attendee_ids := [2],
    pending_attendee_ids := [3, 4], title := "Overfull", notes := none,
    start_time := 14940, end_time := 15000, visibility := "public",
    status := "confirmed", reminder_sent := false }

/-- State holding `bookingE`. -/
def stateE : AppState :=
  { users := [alice, ben, chloe, dana], rooms := [room1, room3],
    bookings := [bookingE], notifications := [] }

/-- The per-booking effect of `process_booking_reminders` on the booking
record itself: `reminder_sent` is set (monotonically) exactly when the
reminder fires; the flag is never cleared. -/
def remindBooking (now : Int) (b : Booking) : Booking :=
  if b.reminder_sent || b.start_time != now + 60 then b
  else { b with reminder_sent := true }

/-- The disjointness part of the attendee-set invariant: no user is both
accepted and pending on the same booking. -/
def disjointInv (b : Booking) : Prop :=
  b.attendee_ids.toFinset ∩ b.pending_attendee_ids.toFinset = ∅

/-- Fixture `bookingA` after its reminder has been sent. -/
def bookingR : Booking := { bookingA with reminder_sent := true }

/-- Fixture `bookingE` after Chloe accepts her invitation. -/
def bookingEpost : Booking :=
  { bookingE with attendee_ids := [2, 3], pending_attendee_ids := [4] }

/-- Fixture `stateE` after Chloe accepts her invitation. -/
def stateEpost : AppState := { stateE with bookings := [bookingEpost] }

/-- Fixture `bookingC` after Alice's update with `reqHijack` (empty attendee
request): Ben remains pending even though he was not requested. -/
def bookingCpost : Booking :=
  { id := 1, room_id := 1, organiser_id := 1, attendee_ids := [],
    pending_attendee_ids := [2], title := "Hijacked Meeting", notes := none,
    start_time := 15000, end_time := 15060, visibility := "public",
    status := "confirmed", reminder_sent := false }

/-- Fixture `stateC` after Alice's update with `reqHijack`. -/
def stateCpost : AppState := { stateC with bookings := [bookingCpost] }

/-! ## Helper lemmas -/

/-- Inverting a successful `Except` bind. -/
theorem exceptBind_ok {ε α β : Type} {e : Except ε α} {f : α → Except ε β} {v : β}
    (h : (e >>= f) = .ok v) : ∃ a, e = .ok a ∧ f a = .ok v := by
  cases e with
  | error x => simp [Bind.bind, Except.bind] at h
  | ok a => exact ⟨a, rfl, by simpa [Bind.bind, Except.bind] using h⟩

/-- The booking-list component of the reminder fold is a `map` of
`remindBooking`. -/
theorem processFold_fst (now : Int) (rooms : List Room) (l : List Booking)
    (acc : List Booking) (ns : List Notification) :
    (l.foldl (fun acc b =>
      if b.reminder_sent || b.start_time != now + 60 then (acc.1 ++ [b], acc.2)
      else (acc.1 ++ [{ b with reminder_sent := true }], reminderNotifs now rooms b acc.2))
      (acc, ns)).1 = acc ++ l.map (remindBooking now) := by
  induction l generalizing acc ns with
  | nil => simp
  | cons b rest ih =>
    simp only [List.foldl, List.map, remindBooking]
    by_cases hb : (b.reminder_sent || b.start_time != now + 60) = true
    · simp only [hb, if_true, ih, List.append_assoc, List.singleton_append]
    · simp only [hb, if_false, Bool.false_eq_true, ih, List.append_assoc,
        List.singleton_append]

/-- If every booking is skipped (reminder already sent or start time not
exactly one hour away), the reminder fold is the identity. -/
theorem processFold_skip (now : Int) (rooms : List Room) (l : List Booking)
    (acc : List Booking) (ns : List Notification)
    (hl : ∀ b ∈ l, (b.reminder_sent || b.start_time != now + 60) = true) :
    (l.foldl (fun acc b =>
      if b.reminder_sent || b.start_time != now + 60 then (acc.1 ++ [b], acc.2)
      else (acc.1 ++ [{ b with reminder_sent := true }], reminderNotifs now rooms b acc.2))
      (acc, ns)) = (acc ++ l, ns) := by
  induction l generalizing acc ns with
  | nil => simp
  | cons b rest ih =>
    have hb := hl b (by simp)
    simp only [List.foldl, hb, if_true]
    rw [ih _ _ (fun x hx => hl x (by simp [hx]))]
    simp

/-- A booking that has gone through `remindBooking` is always skipped on a
second pass with the same clock. -/
theorem remindBooking_skipped (now : Int) (b : Booking) :
    ((remindBooking now b).reminder_sent
      || (remindBooking now b).start_time != now + 60) = true := by
  unfold remindBooking
  by_cases hb : (b.reminder_sent || b.start_time != now + 60) = true
  · simpa [hb] using hb
  · simp [hb]

/-! ## Claim theorems -/

/-- C10: `process_booking_reminders` is idempotent per booking via the
`reminder_sent` flag: a second run with the same clock reading leaves both
the booking list and the notification list exactly as the first run left
them (so reminder notifications are emitted only on the first run), the
effect on each booking is `remindBooking`, and `reminder_sent`, once true,
is never reset by it. -/
theorem process_booking_reminders_idempotent (now : Int) (rooms : List Room)
    (bookings : List Booking) (notifs : List Notification) :
    process_booking_reminders now rooms
        (process_booking_reminders now rooms bookings notifs).1
        (process_booking_reminders now rooms bookings notifs).2
      = process_booking_reminders now rooms bookings notifs
    ∧ (process_booking_reminders now rooms bookings notifs).1
        = bookings.map (remindBooking now)
    ∧ ∀ b : Booking, b.reminder_sent = true →
        (remindBooking now b).reminder_sent = true := by
  have hfst : (process_booking_reminders now rooms bookings notifs).1
      = bookings.map (remindBooking now) := by
    unfold process_booking_reminders
    simpa using processFold_fst now rooms bookings [] notifs
  refine ⟨?_, hfst, ?_⟩
  · conv_lhs => rw [process_booking_reminders]
    rw [processFold_skip]
    · simp
    · intro b hb
      rw [hfst] at hb
      obtain ⟨b0, _, rfl⟩ := List.mem_map.mp hb
      exact remindBooking_skipped now b0
  · intro b hb
    unfold remindBooking
    by_cases hc : (b.reminder_sent || b.start_time != now + 60) = true
    · simpa [hc] using hb
    · simp [hc]

/-- Witness for C10 at a concrete input: a booking whose reminder was
already sent keeps the flag after `remindBooking`. -/
theorem process_booking_reminders_idempotent_witness :
    (remindBooking 0 bookingR).reminder_sent = true :=
  (process_booking_reminders_idempotent 0 [] [] []).2.2 bookingR rfl

/-- C1 (code bug): `update_booking` never checks the caller against
`booking.organiser_id`.  Ben (id 2) is not the organiser of Alice's
booking, yet his otherwise-valid update succeeds and rewrites the stored
booking — the 403 its own docstring and `test_authorization.py` demand
never happens. -/
theorem update_booking_no_organiser_check :
    ben.id ≠ bookingA.organiser_id
    ∧ (update_booking 0 1 reqHijack ben stateA).map
        (fun p => (p.1.title, p.2.bookings.map (fun b => b.title)))
      = .ok ("Hijacked Meeting", ["Hijacked Meeting"]) := by
  exact ⟨by decide, by rfl⟩

/-- C2 (code bug): `create_booking` never checks the caller's role.  Ben,
whose role is `attendee`, creates a booking successfully and becomes its
organiser — the 403 that `test_authorization.py` demands never happens. -/
theorem create_booking_no_role_check :
    ben.role = "attendee"
    ∧ ben.role ≠ "organiser"
    ∧ (create_booking 0 reqAttendee ben stateEmpty).map
        (fun p => (p.1.organiser_id, p.2.bookings.length))
      = .ok (2, 1) := by
  exact ⟨rfl, by decide, by rfl⟩

/-- C3 (code bug): the privacy check of `get_booking_details` only admits
the organiser and accepted attendees.  Ben holds a pending invitation to
Alice's private booking, yet gets a 403 instead of the view access the
endpoint docstring ("view booking information before accepting/declining")
and the spec promise. -/
theorem get_booking_details_excludes_pending :
    ben.id ∈ bookingC.pending_attendee_ids
    ∧ bookingC.visibility = "private"
    ∧ get_booking_details 1 ben stateC
      = .error ⟨403, "You do not have access to this private booking"⟩ := by
  exact ⟨by decide, rfl, by rfl⟩

/-- C4 (code bug): `decline_invitation` never validates membership.  Chloe
(id 3) is in neither attendee set of `bookingD`, yet her decline first
emits an `invitation_declined` notification to the organiser and then
crashes with the uncaught `ValueError` of `list.remove` (an HTTP 500, not
the specified `InvalidInput`), leaving the mutated notification list
behind. -/
theorem decline_invitation_nonmember_partial_mutation :
    chloe.id ∉ bookingD.pending_attendee_ids
    ∧ chloe.id ∉ bookingD.attendee_ids
    ∧ (decline_invitation 0 1 chloe none stateD).1 = .valueError
    ∧ (decline_invitation 0 1 chloe none stateD).2.notifications.map
        (fun n => (n.user_id, n.type))
      = [(1, "invitation_declined")] := by
  exact ⟨by decide, by decide, by rfl, by rfl⟩

/-- C6 counterexample: the very same update request that succeeds when the
clock reads 0 is rejected with "Cannot book in the past." when the clock
has passed its start — `update_booking` does *not* relax the past-start
constraint. -/
theorem update_booking_past_start_counterexample :
    bookingA.organiser_id = alice.id
    ∧ (reqHijack.date * 1440 + reqHijack.start_time : Int) < 20000
    ∧ update_booking 20000 1 reqHijack alice stateA
        = .error ⟨400, "Cannot book in the past."⟩
    ∧ (update_booking 0 1 reqHijack alice stateA).map (fun p => p.1.title)
        = .ok "Hijacked Meeting" := by
  exact ⟨rfl, by decide, by rfl, by rfl⟩

/-- C6 amended: `update_booking` applies exactly the same past-start
validation as `create_booking`, via the shared `_parse_request_times`: any
update whose (well-ordered) start lies before validation time fails with
`InvalidInput` ("Cannot book in the past."), for every caller — even the
organiser — and every state in which the booking exists. -/
theorem update_booking_rejects_past_start (now : Int) (booking_id : Nat)
    (req : CreateBookingRequest) (user : User) (s : AppState) (i : Nat)
    (hidx : _booking_index s.bookings booking_id = .ok i)
    (hend : req.date * 1440 + req.start_time < req.date * 1440 + req.end_time)
    (hpast : req.date * 1440 + req.start_time < now) :
    update_booking now booking_id req user s
      = .error ⟨400, "Cannot book in the past."⟩ := by
  unfold update_booking
  rw [hidx]
  have hp : _parse_request_times now req.date req.start_time req.end_time
      = .error ⟨400, "Cannot book in the past."⟩ := by
    unfold _parse_request_times
    rw [if_neg (by omega), if_pos hpast]
  simp [Bind.bind, Except.bind, hp]

/-- Witness for C6 at a concrete input. -/
theorem update_booking_rejects_past_start_witness :
    update_booking 20000 1 reqHijack alice stateA
      = .error ⟨400, "Cannot book in the past."⟩ :=
  update_booking_rejects_past_start 20000 1 reqHijack alice stateA 0
    (by rfl) (by decide) (by decide)

/-- Inversion of a successful `update_booking`: the validations all
passed, and the stored booking is the old one with the request fields and
the reconciled attendee sets. -/
theorem update_booking_ok_inv {now : Int} {booking_id : Nat}
    {req : CreateBookingRequest} {user : User} {s : AppState} {b' : Booking}
    {s' : AppState} (h : update_booking now booking_id req user s = .ok (b', s')) :
    ∃ i ids start «end»,
      _booking_index s.bookings booking_id = .ok i
      ∧ _resolve_attendees s.users req.attendee_emails = .ok ids
      ∧ _parse_request_times now req.date req.start_time req.end_time = .ok (start, «end»)
      ∧ b' = { s.bookings.getD i default with
               room_id := req.room_id,
               attendee_ids := (reconcile_attendees (s.bookings.getD i default).attendee_ids
                 (s.bookings.getD i default).pending_attendee_ids ids).1,
               pending_attendee_ids :=
                 (reconcile_attendees (s.bookings.getD i default).attendee_ids
                   (s.bookings.getD i default).pending_attendee_ids ids).2,
               title := req.title, notes := req.notes,
               start_time := start, end_time := «end», visibility := req.visibility }
      ∧ s' = { s with bookings := s.bookings.set i b' } := by
  unfold update_booking at h
  obtain ⟨i, hidx, h⟩ := exceptBind_ok h
  dsimp only at h
  obtain ⟨pe, hparse, h⟩ := exceptBind_ok h
  obtain ⟨start, «end»⟩ := pe
  dsimp only at h
  obtain ⟨ids, hres, h⟩ := exceptBind_ok h
  rcases hrec : reconcile_attendees (s.bookings.getD i default).attendee_ids
      (s.bookings.getD i default).pending_attendee_ids ids with ⟨acc, pend⟩
  rw [hrec] at h
  obtain ⟨room, hroom, h⟩ := exceptBind_ok h
  obtain ⟨u1, hcap, h⟩ := exceptBind_ok h
  obtain ⟨u2, havail, h⟩ := exceptBind_ok h
  rw [Except.ok.injEq, Prod.mk.injEq] at h
  obtain ⟨hb, hs⟩ := h
  exact ⟨i, ids, start, «end», hidx, hres, hparse, by rw [← hb, hrec], by rw [← hs, hb]⟩

/-- Membership specification of `reconcile_attendees`: the new accepted
set is `old accepted ∩ requested`; the new pending set is
`(old pending ∪ requested) \ old accepted`. -/
theorem reconcile_attendees_spec (a p n : List Nat) :
    (reconcile_attendees a p n).1.toFinset = a.toFinset ∩ n.toFinset
    ∧ (reconcile_attendees a p n).2.toFinset = (p.toFinset ∪ n.toFinset) \ a.toFinset := by
  constructor <;> ext x <;>
    simp [reconcile_attendees, List.mem_filter, List.mem_dedup, List.mem_append] <;>
    tauto

/-- C5 counterexample: Ben is pending on `bookingC` and absent from the
requested attendee set (which is empty), yet after Alice's successful
update he is still pending — attendees "no longer requested" are *not*
dropped from the pending set. -/
theorem update_booking_keeps_unrequested_pending :
    reqHijack.attendee_emails = []
    ∧ ben.id ∈ bookingC.pending_attendee_ids
    ∧ (update_booking 0 1 reqHijack alice stateC).map
        (fun p => p.1.pending_attendee_ids)
      = .ok [2] := by
  exact ⟨rfl, by decide, by rfl⟩

/-- C5 amended: for every successful `update_booking` with resolved
attendee-id set `S`, the stored accepted set is `old accepted ∩ S` (so
previously-accepted attendees still in `S` stay accepted and
previously-accepted attendees outside `S` are dropped from both sets, and
members of `S` not previously accepted end up pending), but the stored
pending set is `(old pending ∪ S) \ old accepted`: existing pending
attendees are retained even when they are not in `S`.  Round trip: when
`S` equals the current accepted set, accepted membership is unchanged and
pending membership is the old pending set minus the accepted set (no new
pending entries). -/
theorem update_booking_attendee_reconciliation (now : Int) (booking_id : Nat)
    (req : CreateBookingRequest) (user : User) (s : AppState) (i : Nat)
    (B : Booking) (S : List Nat) (b' : Booking) (s' : AppState)
    (hidx : _booking_index s.bookings booking_id = .ok i)
    (hB : s.bookings.getD i default = B)
    (hS : _resolve_attendees s.users req.attendee_emails = .ok S)
    (hok : update_booking now booking_id req user s = .ok (b', s')) :
    b'.attendee_ids.toFinset = B.attendee_ids.toFinset ∩ S.toFinset
    ∧ b'.pending_attendee_ids.toFinset
        = (B.pending_attendee_ids.toFinset ∪ S.toFinset) \ B.attendee_ids.toFinset
    ∧ (S.toFinset = B.attendee_ids.toFinset →
        b'.attendee_ids.toFinset = B.attendee_ids.toFinset
        ∧ b'.pending_attendee_ids.toFinset
            = B.pending_attendee_ids.toFinset \ B.attendee_ids.toFinset) := by
  obtain ⟨i2, ids, start, «end», hidx2, hS2, _, hb, _⟩ := update_booking_ok_inv hok
  rw [hidx] at hidx2
  obtain rfl : i2 = i := by
    cases hidx2
    rfl
  rw [hS] at hS2
  obtain rfl : ids = S := by
    cases hS2
    rfl
  rw [hB] at hb
  obtain ⟨hacc, hpend⟩ := reconcile_attendees_spec B.attendee_ids B.pending_attendee_ids ids
  subst hb
  refine ⟨hacc, hpend, fun hround => ⟨?_, ?_⟩⟩
  · rw [hacc, hround, Finset.inter_self]
  · rw [hpend, hround]
    ext x
    simp only [Finset.mem_sdiff, Finset.mem_union]
    tauto

/-- Witness for C5 at a concrete input: Alice's update of `bookingC` with
an empty request. -/
theorem update_booking_attendee_reconciliation_witness :
    bookingCpost.attendee_ids.toFinset
        = bookingC.attendee_ids.toFinset ∩ (List.toFinset ([] : List Nat))
    ∧ bookingCpost.pending_attendee_ids.toFinset
        = (bookingC.pending_attendee_ids.toFinset ∪ (List.toFinset ([] : List Nat)))
            \ bookingC.attendee_ids.toFinset
    ∧ ((List.toFinset ([] : List Nat)) = bookingC.attendee_ids.toFinset →
        bookingCpost.attendee_ids.toFinset = bookingC.attendee_ids.toFinset
        ∧ bookingCpost.pending_attendee_ids.toFinset
            = bookingC.pending_attendee_ids.toFinset \ bookingC.attendee_ids.toFinset) :=
  update_booking_attendee_reconciliation 0 1 reqHijack alice stateC 0 bookingC []
    bookingCpost stateCpost (by rfl) (by rfl) (by rfl) (by rfl)

/-- Inversion of a successful `create_booking`: the new booking starts
with an empty accepted set and is appended to the booking list. -/
theorem create_booking_ok_inv {now : Int} {req : CreateBookingRequest}
    {user : User} {s : AppState} {b' : Booking} {s' : AppState}
    (h : create_booking now req user s = .ok (b', s')) :
    b'.attendee_ids = [] ∧ s'.bookings = s.bookings ++ [b'] := by
  unfold create_booking at h
  obtain ⟨pe, hp, h⟩ := exceptBind_ok h
  obtain ⟨start, «end»⟩ := pe
  dsimp only at h
  obtain ⟨room, hr, h⟩ := exceptBind_ok h
  obtain ⟨ids, hres, h⟩ := exceptBind_ok h
  obtain ⟨u1, hc, h⟩ := exceptBind_ok h
  obtain ⟨u2, ha, h⟩ := exceptBind_ok h
  rw [Except.ok.injEq, Prod.mk.injEq] at h
  obtain ⟨hb, hs⟩ := h
  exact ⟨by rw [← hb], by rw [← hs, ← hb]⟩

/-- Lemma: `_booking_index` returns an index whose entry is a member of the
list. -/
theorem _booking_index_mem (l : List Booking) (bid : Nat) (i : Nat)
    (h : _booking_index l bid = .ok i) : l.getD i default ∈ l := by
  induction l generalizing i with
  | nil => simp [_booking_index] at h
  | cons b rest ih =>
    unfold _booking_index at h
    by_cases hb : (b.id == bid) = true
    · rw [if_pos hb] at h
      cases h
      simp
    · rw [if_neg hb] at h
      cases hr : _booking_index rest bid with
      | error e =>
        rw [hr] at h
        cases h
      | ok j =>
        rw [hr] at h
        cases h
        simpa [List.getD_cons_succ] using Or.inr (ih j hr)

/-- Inversion of a successful `accept_invitation`: the caller was pending,
and the stored booking moves them from the pending list to the end of the
accepted list. -/
theorem accept_invitation_ok_inv {now : Int} {booking_id : Nat} {user : User}
    {s : AppState} {r : String} {s' : AppState}
    (h : accept_invitation now booking_id user s = .ok (r, s')) :
    ∃ i, _booking_index s.bookings booking_id = .ok i
      ∧ (s.bookings.getD i default).pending_attendee_ids.contains user.id = true
      ∧ s' = { s with
          bookings := s.bookings.set i
            { s.bookings.getD i default with
              pending_attendee_ids :=
                (s.bookings.getD i default).pending_attendee_ids.erase user.id,
              attendee_ids := (s.bookings.getD i default).attendee_ids ++ [user.id] } } := by
  unfold accept_invitation at h
  obtain ⟨i, hidx, h⟩ := exceptBind_ok h
  dsimp only at h
  by_cases hc : ((s.bookings.getD i default).pending_attendee_ids.contains user.id) = true
  · rw [if_pos hc] at h
    obtain ⟨u1, hcap, h⟩ := exceptBind_ok h
    by_cases hst : ((s.bookings.getD i default).start_time < now)
    · rw [if_pos hst] at h
      cases h
    · rw [if_neg hst] at h
      rw [Except.ok.injEq, Prod.mk.injEq] at h
      exact ⟨i, hidx, hc, h.2.symm⟩
  · rw [if_neg hc] at h
    split at h <;> cases h

/-- Inversion of a successful `decline_invitation`: the stored booking has
the caller erased from exactly one of the two attendee lists, and the rest
of the booking list is untouched. -/
theorem decline_invitation_ok_inv {now : Int} {booking_id : Nat} {user : User}
    {body : Option DeclineInvitationRequest} {s : AppState} {msg : String}
    {s' : AppState}
    (h : decline_invitation now booking_id user body s = (.ok msg, s')) :
    ∃ i, _booking_index s.bookings booking_id = .ok i
      ∧ (s'.bookings = s.bookings.set i
            { s.bookings.getD i default with
              pending_attendee_ids :=
                (s.bookings.getD i default).pending_attendee_ids.erase user.id }
        ∨ s'.bookings = s.bookings.set i
            { s.bookings.getD i default with
              attendee_ids := (s.bookings.getD i default).attendee_ids.erase user.id }) := by
  unfold decline_invitation at h
  cases hidx : _booking_index s.bookings booking_id with
  | error e =>
    rw [hidx] at h
    simp at h
  | ok i =>
    rw [hidx] at h
    dsimp only at h
    by_cases horg : (user.id == (s.bookings.getD i default).organiser_id) = true
    · rw [if_pos horg] at h
      simp at h
    · rw [if_neg horg] at h
      by_cases hacc : ((s.bookings.getD i default).attendee_ids.contains user.id
          && decide ((s.bookings.getD i default).start_time < now)) = true
      · rw [if_pos hacc] at h
        simp at h
      · rw [if_neg hacc] at h
        by_cases hpend : ((s.bookings.getD i default).pending_attendee_ids.contains
            user.id) = true
        · rw [if_pos hpend] at h
          rw [if_pos hpend] at h
          rw [Prod.mk.injEq] at h
          refine ⟨i, rfl, Or.inl ?_⟩
          rw [← h.2]
          have hm : user.id ∈ (s.bookings[i]?.getD default).pending_attendee_ids := by
            simpa [List.getD] using hpend
          simp [hm]
        · rw [if_neg hpend] at h
          by_cases htgt : ((s.bookings.getD i default).attendee_ids.contains
              user.id) = true
          · rw [if_pos htgt] at h
            rw [if_neg hpend] at h
            rw [Prod.mk.injEq] at h
            refine ⟨i, rfl, Or.inr ?_⟩
            rw [← h.2]
            have hm : user.id ∉ (s.bookings[i]?.getD default).pending_attendee_ids := by
              simpa [List.getD] using hpend
            simp [hm]
          · rw [if_neg htgt] at h
            simp at h

/-- C7 counterexample: `_resolve_attendees` does not exclude the
organiser, so Alice creating a booking that lists her own email ends up
with her own id — the organiser's — in `pending_attendee_ids`. -/
theorem create_booking_organiser_in_pending :
    reqSelf.attendee_emails = [alice.email]
    ∧ (create_booking 0 reqSelf alice stateEmpty).map
        (fun p => (p.1.organiser_id, p.1.pending_attendee_ids))
      = .ok (1, [1]) := by
  exact ⟨rfl, by rfl⟩

/-- C7 amended: the *disjointness* half of the invariant does hold — in
any state whose bookings have disjoint, duplicate-free attendee sets,
every booking present after a successful `create_booking`,
`update_booking`, `accept_invitation` or `decline_invitation` still has
disjoint accepted and pending sets.  The organiser-exclusion half is
*not* enforced (see the counterexample): a create or update whose
attendee email list contains the organiser's own email places the
organiser's id in the pending set. -/
theorem attendee_sets_stay_disjoint (now : Int) (s : AppState)
    (hs : ∀ b ∈ s.bookings, disjointInv b ∧ b.pending_attendee_ids.Nodup) :
    (∀ req u b' s', create_booking now req u s = .ok (b', s') →
        ∀ b ∈ s'.bookings, disjointInv b)
    ∧ (∀ bid req u b' s', update_booking now bid req u s = .ok (b', s') →
        ∀ b ∈ s'.bookings, disjointInv b)
    ∧ (∀ bid u r s', accept_invitation now bid u s = .ok (r, s') →
        ∀ b ∈ s'.bookings, disjointInv b)
    ∧ (∀ bid u body msg s', decline_invitation now bid u body s = (.ok msg, s') →
        ∀ b ∈ s'.bookings, disjointInv b) := by
  refine ⟨?_, ?_, ?_, ?_⟩
  · intro req u b' s' hok b hb
    obtain ⟨hempty, hlist⟩ := create_booking_ok_inv hok
    rw [hlist] at hb
    rcases List.mem_append.mp hb with hmem | hnew
    · exact (hs b hmem).1
    · have hbb : b = b' := by simpa using hnew
      subst hbb
      unfold disjointInv
      rw [hempty]
      simp
  · intro bid req u b' s' hok b hb
    obtain ⟨i, ids, start, «end», hidx, hres, hp, hbdef, hsdef⟩ := update_booking_ok_inv hok
    subst hsdef
    rcases List.mem_or_eq_of_mem_set hb with hmem | hbb
    · exact (hs b hmem).1
    · subst hbb
      subst hbdef
      unfold disjointInv
      obtain ⟨hacc, hpend⟩ := reconcile_attendees_spec
        (s.bookings.getD i default).attendee_ids
        (s.bookings.getD i default).pending_attendee_ids ids
      dsimp only
      rw [hacc, hpend]
      ext x
      simp only [Finset.mem_inter, Finset.mem_sdiff, Finset.mem_union,
        Finset.not_mem_empty, iff_false]
      tauto
  · intro bid u r s' hok b hb
    obtain ⟨i, hidx, hpend, hsdef⟩ := accept_invitation_ok_inv hok
    subst hsdef
    rcases List.mem_or_eq_of_mem_set hb with hmem | hbb
    · exact (hs b hmem).1
    · subst hbb
      have hBmem := _booking_index_mem s.bookings bid i hidx
      obtain ⟨hdisj, hnd⟩ := hs _ hBmem
      unfold disjointInv at hdisj ⊢
      ext x
      have hx := Finset.eq_empty_iff_forall_not_mem.mp hdisj x
      simp only [Finset.mem_inter, List.mem_toFinset] at hx
      simp only [Finset.mem_inter, List.mem_toFinset, List.mem_append,
        List.mem_singleton, Finset.not_mem_empty, iff_false]
      rintro ⟨hxa | hxu, hxe⟩
      · exact hx ⟨hxa, List.mem_of_mem_erase hxe⟩
      · subst hxu
        exact (List.Nodup.not_mem_erase hnd) hxe
  · intro bid u body msg s' hok b hb
    obtain ⟨i, hidx, hcase⟩ := decline_invitation_ok_inv hok
    have hBmem := _booking_index_mem s.bookings bid i hidx
    have hdisj := (hs _ hBmem).1
    rcases hcase with hset | hset
    · rw [hset] at hb
      rcases List.mem_or_eq_of_mem_set hb with hmem | hbb
      · exact (hs b hmem).1
      · subst hbb
        unfold disjointInv at hdisj ⊢
        ext x
        have hx := Finset.eq_empty_iff_forall_not_mem.mp hdisj x
        simp only [Finset.mem_inter, List.mem_toFinset] at hx
        simp only [Finset.mem_inter, List.mem_toFinset, Finset.not_mem_empty,
          iff_false]
        rintro ⟨hxa, hxe⟩
        exact hx ⟨hxa, List.mem_of_mem_erase hxe⟩
    · rw [hset] at hb
      rcases List.mem_or_eq_of_mem_set hb with hmem | hbb
      · exact (hs b hmem).1
      · subst hbb
        unfold disjointInv at hdisj ⊢
        ext x
        have hx := Finset.eq_empty_iff_forall_not_mem.mp hdisj x
        simp only [Finset.mem_inter, List.mem_toFinset] at hx
        simp only [Finset.mem_inter, List.mem_toFinset, Finset.not_mem_empty,
          iff_false]
        rintro ⟨hxe, hxp⟩
        exact hx ⟨List.mem_of_mem_erase hxe, hxp⟩

/-- Witness for C7 at a concrete input: the booking stored after Chloe's
accept on `stateE` still has disjoint attendee sets. -/
theorem attendee_sets_stay_disjoint_witness : disjointInv bookingEpost :=
  (attendee_sets_stay_disjoint 0 stateE (by
    intro b hb
    have hbb : b = bookingE := by simpa [stateE] using hb
    subst hbb
    refine ⟨?_, by decide⟩
    unfold disjointInv
    decide)).2.2.1 1 chloe
    "Successfully accepted invitation" stateEpost (by rfl) bookingEpost (by decide)

/-- C8: `accept_invitation` succeeds only when
`|accepted| + 1 (organiser) + 1 (joiner) ≤ capacity` of the booking's
room (first conjunct, over all states), and pending invitees do not count
against the check: on `stateE` the accept succeeds even though
accepted + pending + organiser (4) exceeds the capacity (3) of `room3`
(second conjunct). -/
theorem accept_invitation_capacity_check :
    (∀ (now : Int) (bid : Nat) (u : User) (s : AppState) (i : Nat) (B : Booking)
        (room : Room) (r : String) (s' : AppState),
      _booking_index s.bookings bid = .ok i →
      s.bookings.getD i default = B →
      s.rooms.find? (fun rm => rm.id == B.room_id) = some room →
      accept_invitation now bid u s = .ok (r, s') →
      B.attendee_ids.length + 1 + 1 ≤ room.capacity)
    ∧ ((accept_invitation 0 1 chloe stateE).map Prod.fst
        = .ok "Successfully accepted invitation"
      ∧ room3.capacity
          < bookingE.attendee_ids.length + bookingE.pending_attendee_ids.length + 1) := by
  constructor
  · intro now bid u s i B room r s' hidx hB hroom hok
    unfold accept_invitation at hok
    obtain ⟨i2, hidx2, hok⟩ := exceptBind_ok hok
    rw [hidx] at hidx2
    obtain rfl : i2 = i := by
      cases hidx2
      rfl
    dsimp only at hok
    rw [hB] at hok
    by_cases hc : (B.pending_attendee_ids.contains u.id) = true
    · rw [if_pos hc] at hok
      rw [hroom] at hok
      dsimp only at hok
      by_cases hcap : B.attendee_ids.length + 1 + 1 > room.capacity
      · rw [if_pos hcap] at hok
        simp [Bind.bind, Except.bind] at hok
      · omega
    · rw [if_neg hc] at hok
      split at hok <;> cases hok
  · refine ⟨by rfl, by decide⟩

/-- Witness for the general conjunct of C8 at a concrete input: Chloe's
successful accept on `stateE` implies the accepted-plus-organiser-plus-one
bound on `room3`. -/
theorem accept_invitation_capacity_check_witness :
    bookingE.attendee_ids.length + 1 + 1 ≤ room3.capacity :=
  accept_invitation_capacity_check.1 0 1 chloe stateE 0 bookingE room3
    "Successfully accepted invitation" stateEpost (by rfl) (by rfl) (by rfl) (by rfl)

/-- Lemma: `create_notification` appends exactly one notification carrying the
given recipient, type, title and booking id. -/
theorem create_notification_append (ns : List Notification) (now : Int) (uid : Nat)
    (ty ti m : String) (bid : Option Nat) :
    ∃ one : Notification, create_notification ns now uid ty ti m bid = ns ++ [one]
      ∧ one.user_id = uid ∧ one.type = ty ∧ one.title = ti ∧ one.booking_id = bid :=
  ⟨_, rfl, rfl, rfl, rfl, rfl⟩

/-- A notification loop (as in `delete_booking`) appends one notification
per recipient, in recipient order, all with the loop's type, title and
booking id. -/
theorem notifyLoop_spec (now : Int) (ty ti m : String) (bid : Option Nat)
    (uids : List Nat) :
    ∀ ns : List Notification,
      ∃ new : List Notification,
        uids.foldl (fun acc uid => create_notification acc now uid ty ti m bid) ns
          = ns ++ new
        ∧ new.map (fun n => n.user_id) = uids
        ∧ ∀ n ∈ new, n.type = ty ∧ n.title = ti ∧ n.booking_id = bid := by
  induction uids with
  | nil =>
    intro ns
    exact ⟨[], by simp, rfl, by simp⟩
  | cons uhd rest ih =>
    intro ns
    obtain ⟨new, h1, h2, h3⟩ := ih (create_notification ns now uhd ty ti m bid)
    obtain ⟨one, ho, hou, hoty, hoti, hob⟩ :=
      create_notification_append ns now uhd ty ti m bid
    refine ⟨one :: new, ?_, ?_, ?_⟩
    · rw [List.foldl_cons, h1, ho, List.append_assoc, List.singleton_append]
    · simp [h2, hou]
    · intro n hn
      rcases List.mem_cons.mp hn with rfl | hn
      · exact ⟨hoty, hoti, hob⟩
      · exact h3 n hn

/-- C9: cancelling booking `B` emits exactly
`|accepted(B)| + |pending(B)|` notifications, one per affected attendee in
order — "Meeting Cancelled" for each accepted attendee, "Meeting
Invitation Cancelled" for each pending one, every notification tied to
`B`'s id and built from `B`'s fields — and the resulting state has the
booking removed.  (The notifications are computed from the booking being
cancelled, i.e. generated before its removal.) -/
theorem delete_booking_notifies_before_removal (now : Int) (booking_id : Nat)
    (body : Option CancelBookingRequest) (s : AppState) (i : Nat) (B : Booking)
    (hidx : _booking_index s.bookings booking_id = .ok i)
    (hB : s.bookings.getD i default = B) :
    ∃ (s' : AppState) (new : List Notification),
      delete_booking now booking_id body s = .ok s'
      ∧ s'.notifications = s.notifications ++ new
      ∧ new.map (fun n => n.user_id) = B.attendee_ids ++ B.pending_attendee_ids
      ∧ new.length = B.attendee_ids.length + B.pending_attendee_ids.length
      ∧ (∀ n ∈ new.take B.attendee_ids.length, n.title = "Meeting Cancelled")
      ∧ (∀ n ∈ new.drop B.attendee_ids.length,
          n.title = "Meeting Invitation Cancelled")
      ∧ (∀ n ∈ new, n.type = "booking_cancelled" ∧ n.booking_id = some B.id)
      ∧ s'.bookings = s.bookings.eraseIdx i := by
  obtain ⟨new1, h1, hmap1, hprop1⟩ := notifyLoop_spec now "booking_cancelled"
    "Meeting Cancelled"
    ("The meeting " ++ B.title ++ " scheduled for " ++ fmtTime B.start_time
      ++ " in " ++ room_name_of s.rooms B.room_id
      ++ " has been cancelled by the organizer." ++ reason_suffix (_cancel_reason body))
    (some B.id) B.attendee_ids s.notifications
  obtain ⟨new2, h2, hmap2, hprop2⟩ := notifyLoop_spec now "booking_cancelled"
    "Meeting Invitation Cancelled"
    ("Your invitation to " ++ B.title ++ " scheduled for " ++ fmtTime B.start_time
      ++ " in " ++ room_name_of s.rooms B.room_id
      ++ " has been cancelled." ++ reason_suffix (_cancel_reason body))
    (some B.id) B.pending_attendee_ids (s.notifications ++ new1)
  have hlen1 : new1.length = B.attendee_ids.length := by
    rw [← hmap1, List.length_map]
  have hlen2 : new2.length = B.pending_attendee_ids.length := by
    rw [← hmap2, List.length_map]
  have hdel : delete_booking now booking_id body s
      = .ok { s with
          bookings := s.bookings.eraseIdx i,
          notifications := s.notifications ++ new1 ++ new2 } := by
    unfold delete_booking
    rw [hidx]
    simp only [Bind.bind, Except.bind]
    rw [hB, h1, h2]
  refine ⟨_, new1 ++ new2, hdel, ?_, ?_, ?_, ?_, ?_, ?_, ?_⟩
  · simp [List.append_assoc]
  · rw [List.map_append, hmap1, hmap2]
  · rw [List.length_append, hlen1, hlen2]
  · intro n hn
    rw [← hlen1, List.take_left] at hn
    exact (hprop1 n hn).2.1
  · intro n hn
    rw [← hlen1, List.drop_left] at hn
    exact (hprop2 n hn).2.1
  · intro n hn
    rcases List.mem_append.mp hn with hn | hn
    · exact ⟨(hprop1 n hn).1, (hprop1 n hn).2.2⟩
    · exact ⟨(hprop2 n hn).1, (hprop2 n hn).2.2⟩
  · rfl

/-- Witness for C9 at a concrete input: cancelling `bookingE` (one
accepted, two pending attendees). -/
theorem delete_booking_notifies_before_removal_witness :
    ∃ (s' : AppState) (new : List Notification),
      delete_booking 0 1 none stateE = .ok s'
      ∧ s'.notifications = stateE.notifications ++ new
      ∧ new.map (fun n => n.user_id)
          = bookingE.attendee_ids ++ bookingE.pending_attendee_ids
      ∧ new.length = bookingE.attendee_ids.length + bookingE.pending_attendee_ids.length
      ∧ (∀ n ∈ new.take bookingE.attendee_ids.length, n.title = "Meeting Cancelled")
      ∧ (∀ n ∈ new.drop bookingE.attendee_ids.length,
          n.title = "Meeting Invitation Cancelled")
      ∧ (∀ n ∈ new, n.type = "booking_cancelled" ∧ n.booking_id = some bookingE.id)
      ∧ s'.bookings = stateE.bookings.eraseIdx 0 :=
  delete_booking_notifies_before_removal 0 1 none stateE 0 bookingE (by rfl) (by rfl)

end RoomBooking
